import Mathlib

/-!
Shallow embedding of the timezone conversion engine of
`src/timezone_dashboard.py` (a Streamlit timezone-converter dashboard).

Conventions of the embedding:

* An `Instant` is an integer number of epoch seconds (`Int`).
* A naive (civil) datetime is likewise represented by its integer
  "local timestamp": the number of seconds its fields would denote if they
  were read as UTC.  Calendar conversion between the (y,m,d,h,mi,s) field
  view and this linear view is given by `civilToEpoch` / `epochToCivil`.
* A `Zone` models a platform IANA zone over the window of instants a given
  claim touches: a single offset transition at UTC instant `transAt`, with
  total UTC offsets (seconds), abbreviations and DST flags on each side.
  Zones with a fixed offset are modelled with `offBefore = offAfter`.
* `zoneinfo` fold semantics (PEP 495), checked against CPython: attaching a
  naive datetime to a zone with `fold=0` resolves an ambiguous-or-missing
  civil time with the offset in force before the transition, `fold=1` with
  the offset in force after it; outside the anomalous window the fold flag
  is ignored.
* `pytz` semantics: `tz.localize(dt, is_dst=None)` raises
  `AmbiguousTimeError` in a fold and `NonExistentTimeError` in a gap;
  with an explicit boolean `is_dst` it never raises and selects the
  candidate offset whose DST flag matches; for unambiguous times `is_dst`
  is ignored.
* Python exceptions are modelled with `Except`; code that catches and
  discards an exception is modelled by `Except.toOption` / explicit
  branching.  Python floor division `//` and modulo `%` are `Int.fdiv` and
  `Int.fmod`.
-/

namespace TZDash

/-- A zone over the relevant window: one offset transition at UTC instant
`transAt`; offsets are total UTC displacements in seconds.  Modelled from
the platform IANA database entries used by `ZoneInfo`/`pytz.timezone`. -/
structure Zone where
  transAt : Int
  offBefore : Int
  offAfter : Int
  abbrBefore : String
  abbrAfter : String
  dstBefore : Bool
  dstAfter : Bool
  deriving DecidableEq, Repr

/-- Offset of the zone at an absolute instant `t` (epoch seconds). -/
def offsetAtInstant (z : Zone) (t : Int) : Int :=
  if t < z.transAt then z.offBefore else z.offAfter

/-- Which side of the transition zoneinfo picks for a naive local timestamp
`c` with the given PEP 495 fold flag (`false` = fold 0): `false` = the
pre-transition data, `true` = the post-transition data. -/
def ttiAfter (z : Zone) (c : Int) (fold : Bool) : Bool :=
  let lo := if z.offBefore ≤ z.offAfter then z.offBefore else z.offAfter
  let hi := if z.offBefore ≤ z.offAfter then z.offAfter else z.offBefore
  if c < z.transAt + lo then false
  else if z.transAt + hi ≤ c then true
  else fold

/-- `utcoffset()` of a naive local timestamp attached to `z` with a fold. -/
def utcoff (z : Zone) (c : Int) (fold : Bool) : Int :=
  if ttiAfter z c fold then z.offAfter else z.offBefore

/-- `tzname()` of a naive local timestamp attached to `z` with a fold. -/
def tznameOf (z : Zone) (c : Int) (fold : Bool) : String :=
  if ttiAfter z c fold then z.abbrAfter else z.abbrBefore

/-- The civil reading `c` occurs twice in `z` (DST fold / fall back). -/
def ambiguousAt (z : Zone) (c : Int) : Bool :=
  z.offAfter < z.offBefore ∧ z.transAt + z.offAfter ≤ c ∧ c < z.transAt + z.offBefore

/-- The civil reading `c` never occurs in `z` (DST gap / spring forward). -/
def gapAt (z : Zone) (c : Int) : Bool :=
  z.offBefore < z.offAfter ∧ z.transAt + z.offBefore ≤ c ∧ c < z.transAt + z.offAfter

/-- An aware datetime: naive local timestamp, zone, PEP 495 fold flag. -/
structure AwareDT where
  civil : Int
  zone : Zone
  fold : Bool
  deriving DecidableEq, Repr

def utcoffsetA (d : AwareDT) : Int := utcoff d.zone d.civil d.fold

def tznameA (d : AwareDT) : String := tznameOf d.zone d.civil d.fold

/-- `datetime.timestamp()` of an aware datetime (epoch seconds). -/
def timestampA (d : AwareDT) : Int := d.civil - utcoffsetA d

/-- `aware.astimezone(z)`: convert through UTC; zoneinfo `fromutc` sets the
fold flag exactly when the resulting local time is the second occurrence of
a repeated interval. -/
def astimezoneA (d : AwareDT) (z : Zone) : AwareDT :=
  let t := timestampA d
  let off := offsetAtInstant z t
  { civil := t + off
    zone := z
    fold := decide (z.transAt ≤ t) && decide (t + off < z.transAt + z.offBefore) }

/-- `make_aware_from_naive`, zoneinfo branch (src line 136-141):
`naive_dt.replace(tzinfo=ZoneInfo(tzname))`, fold left at 0. -/
def make_aware_from_naive (c : Int) (z : Zone) : AwareDT :=
  { civil := c, zone := z, fold := false }

/-! ### Calendar conversion (proleptic Gregorian, days since 1970-01-01) -/

/-- Days from civil date (era-based civil-from-days algorithm). -/
def daysFromCivil (y m d : Int) : Int :=
  let y := if m ≤ 2 then y - 1 else y
  let era := Int.fdiv y 400
  let yoe := y - era * 400
  let doy := Int.fdiv (153 * (m + (if 2 < m then -3 else 9)) + 2) 5 + d - 1
  let doe := yoe * 365 + Int.fdiv yoe 4 - Int.fdiv yoe 100 + doy
  era * 146097 + doe - 719468

/-- Naive local timestamp (seconds) of civil fields. -/
def civilToEpoch (y mo d h mi s : Int) : Int :=
  daysFromCivil y mo d * 86400 + h * 3600 + mi * 60 + s

/-- Civil date from days since epoch (inverse of `daysFromCivil`). -/
def civilFromDays (z : Int) : Int × Int × Int :=
  let z := z + 719468
  let era := Int.fdiv z 146097
  let doe := z - era * 146097
  let yoe := Int.fdiv (doe - Int.fdiv doe 1460 + Int.fdiv doe 36524 - Int.fdiv doe 146096) 365
  let y := yoe + era * 400
  let doy := doe - (365 * yoe + Int.fdiv yoe 4 - Int.fdiv yoe 100)
  let mp := Int.fdiv (5 * doy + 2) 153
  let d := doy - Int.fdiv (153 * mp + 2) 5 + 1
  let m := mp + (if mp < 10 then 3 else -9)
  (if m ≤ 2 then y + 1 else y, m, d)

/-- Civil fields (y, m, d, h, mi, s) of a naive local timestamp. -/
def epochToCivil (t : Int) : Int × Int × Int × Int × Int × Int :=
  let days := Int.fdiv t 86400
  let secs := Int.fmod t 86400
  let ymd := civilFromDays days
  (ymd.1, ymd.2.1, ymd.2.2, Int.fdiv secs 3600, Int.fdiv (Int.fmod secs 3600) 60,
    Int.fmod secs 60)

/-! ### Offset formatting -/

/-- Two-digit zero-padded decimal, as Python `f"{n:02d}"` for `0 ≤ n < 100`. -/
def pad2 (n : Nat) : String :=
  if n < 10 then "0" ++ toString n else toString n

/-- `tz_info_from_aware_dt` (src lines 26-35), as a function of the aware
datetime's `utcoffset()` result (`none` models a None offset). -/
def tz_info_from_aware_dt (off : Option Int) : String :=
  match off with
  | none => "UTC¬±00:00"
  | some total_seconds =>
    let sign := if 0 ≤ total_seconds then "+" else "-"
    let abs_total := total_seconds.natAbs
    "UTC" ++ sign ++ pad2 (abs_total / 3600) ++ ":" ++ pad2 (abs_total % 3600 / 60)

/-- `label_for` (src lines 176-183); `sec?` is `offset_map.get(tz)`.
Python `//` and `%` are floor division and floor modulo. -/
def label_for (tz : String) (sec? : Option Int) : String :=
  match sec? with
  | none => tz
  | some sec =>
    let h := Int.fdiv sec 3600
    let m := (Int.fdiv (Int.fmod sec 3600) 60).natAbs
    let sign := if 0 ≤ sec then "+" else "-"
    tz ++ " (UTC" ++ sign ++ pad2 h.natAbs ++ ":" ++ pad2 m ++ ")"

/-- The offset format stated by the spec, word for word: sign from
`s >= 0`, hours `|s| div 3600`, minutes `(|s| mod 3600) div 60`, rendered
`UTC{sign}{hours:02}:{minutes:02}`.  (Spec-side definition, for
comparison with the source-side formatters.) -/
def specOffsetFormat (s : Int) : String :=
  "UTC" ++ (if 0 ≤ s then "+" else "-") ++ pad2 (s.natAbs / 3600) ++ ":" ++
    pad2 (s.natAbs % 3600 / 60)

/-! ### Zone catalog and offset map -/

/-- `ZoneInfo(tz)` / `pytz.timezone(tz)` against a zone database: raises
(models as `Except.error`) when the identifier is unknown. -/
def zone_info_of (db : List (String × Zone)) (tz : String) : Except String Zone :=
  match db.lookup tz with
  | some z => Except.ok z
  | none => Except.error "ZoneInfoNotFoundError"

/-- The per-zone body of `build_offset_map`: current offset of `tz` at the
reference instant, failing for an unknown identifier. -/
def offset_of_zone (db : List (String × Zone)) (nowUtc : Int) (tz : String) :
    Except String Int :=
  (zone_info_of db tz).map (fun z => offsetAtInstant z nowUtc)

/-- `build_offset_map` (src lines 37-54): map each catalog entry to its
current offset; every exception is caught and recorded as `None`. -/
def build_offset_map (db : List (String × Zone)) (nowUtc : Int)
    (timezones : List String) : List (String × Option Int) :=
  timezones.map (fun tz => (tz, (offset_of_zone db nowUtc tz).toOption))

/-! ### Local timezone detection -/

/-- Python substring membership `needle in hay`, on character lists. -/
def charsPrefixOf : List Char → List Char → Bool
  | [], _ => true
  | _ :: _, [] => false
  | a :: as, b :: bs => a == b && charsPrefixOf as bs

def charsSubOf (needle : List Char) : List Char → Bool
  | [] => charsPrefixOf needle []
  | b :: bs => charsPrefixOf needle (b :: bs) || charsSubOf needle bs

/-- Python `needle in hay` on strings. -/
def strIn (needle hay : String) : Bool := charsSubOf needle.data hay.data

/-- Outcomes of the platform probes the detector consults, as the detector
observes them.  `none` / `false` model a probe that raised or produced
nothing; each probe is consulted independently, as in the source. -/
structure DetectProbes where
  envVar : Option String
  tzlocalAvail : Bool
  tzlocalName : Option String
  tzlocalZoneAttr : Option String
  astimezoneAvail : Bool
  attrZone : Option String
  attrKey : Option String
  tznameRes : Option String
  abbrevRes : Option String
  localOffset : Option Int
  deriving DecidableEq, Repr

/-- The static abbreviation table (src lines 100-105). -/
def abbrev_map : List (String × String) :=
  [("IST", "Asia/Kolkata"), ("CST", "America/Chicago"),
   ("EST", "America/New_York"), ("PST", "America/Los_Angeles")]

/-- Step 1 (src lines 59-61): environment override `DEFAULT_SOURCE_TZ`;
Python truthiness makes the empty string fall through. -/
def envStep (timezones : List String) (p : DetectProbes) : Option (String × String) :=
  match p.envVar with
  | some v => if v ≠ "" ∧ v ∈ timezones then some (v, "env") else none
  | none => none

/-- Step 2 (src lines 63-78): `tzlocal`; `get_localzone()` is consulted only
when `get_localzone_name()` raised. -/
def tzlocalStep (timezones : List String) (p : DetectProbes) : Option (String × String) :=
  if p.tzlocalAvail then
    match p.tzlocalName with
    | some n => if n ∈ timezones then some (n, "tzlocal_name") else none
    | none =>
      match p.tzlocalZoneAttr with
      | some zn => if zn ∈ timezones then some (zn, "tzlocal_zone") else none
      | none => none
  else none

/-- One iteration of step 3's attribute loop: the attribute value counts
only when it is a string naming a catalog member. -/
def attrCandidate (timezones : List String) (v? : Option String) :
    Option (String × String) :=
  match v? with
  | some v => if v ∈ timezones then some (v, "astimezone_attr") else none
  | none => none

/-- The trailing `tzname()` check of step 3 (src lines 93-95); Python
truthiness makes an empty `tzname()` fall through. -/
def astimezoneTznameSub (timezones : List String) (p : DetectProbes) :
    Option (String × String) :=
  match p.tznameRes with
  | some n => if n ≠ "" ∧ n ∈ timezones then some (n, "astimezone_tzname_exact") else none
  | none => none

/-- Step 3 (src lines 81-97): `datetime.now().astimezone()` attributes
`zone` then `key` (first string value naming a catalog member wins), then
exact `tzname()` membership. -/
def astimezoneStep (timezones : List String) (p : DetectProbes) : Option (String × String) :=
  if p.astimezoneAvail then
    match attrCandidate timezones p.attrZone with
    | some r => some r
    | none =>
      match attrCandidate timezones p.attrKey with
      | some r => some r
      | none => astimezoneTznameSub timezones p
  else none

/-- Step 4 (src lines 99-113): abbreviation table lookup. -/
def abbrevStep (timezones : List String) (p : DetectProbes) : Option (String × String) :=
  match p.abbrevRes with
  | some ab =>
    if ab ≠ "" then
      match abbrev_map.lookup ab with
      | some cand => if cand ∈ timezones then some (cand, "abbrev_map") else none
      | none => none
    else none
  | none => none

/-- All catalog zones whose cached offset equals the host offset `s`
(src line 120). -/
def matchesFor (offset_map : List (String × Option Int)) (s : Int) : List String :=
  (offset_map.filter (fun q => decide (q.2 = some s))).map Prod.fst

/-- Step 5 (src lines 115-131): offset matching with the hardcoded
Kolkata preference, then the Kolkata/India name scan, then first match. -/
def offsetStep (offset_map : List (String × Option Int)) (s : Int) :
    Option (String × String) :=
  let ms := matchesFor offset_map s
  if "Asia/Kolkata" ∈ ms then some ("Asia/Kolkata", "offset_prefer")
  else
    match ms.find? (fun m => strIn "Kolkata" m || strIn "India" m) with
    | some m => some (m, "offset_name_match")
    | none =>
      match ms with
      | m0 :: _ => some (m0, "offset_first_match")
      | [] => none

/-- `detect_local_timezone_candidate` (src lines 57-133): strictly ordered
short-circuiting chain; terminal fallback `("UTC", "fallback")`.  Every
probe failure is already absorbed into `DetectProbes`, so the function is
total by construction (the source catches every exception per step). -/
def detect_local_timezone_candidate (timezones : List String)
    (offset_map : List (String × Option Int)) (p : DetectProbes) : String × String :=
  match envStep timezones p with
  | some r => r
  | none =>
    match tzlocalStep timezones p with
    | some r => r
    | none =>
      match astimezoneStep timezones p with
      | some r => r
      | none =>
        match abbrevStep timezones p with
        | some r => r
        | none =>
          match p.localOffset with
          | some s =>
            match offsetStep offset_map s with
            | some r => r
            | none => ("UTC", "fallback")
          | none => ("UTC", "fallback")

/-! ### Manual localization (ConversionEngine `localize`) -/

/-- What the manual-conversion localization reports: whether an anomaly
prompt was raised, its text, the naive civil time actually localized
(after any shift), and the resulting instant. -/
structure LocalizeOutcome where
  ambiguous : Bool
  prompt : Option String
  civilUsed : Int
  instant : Int
  deriving DecidableEq, Repr

/-- Manual localization, zoneinfo branch (src lines 298-315): build the
fold=0 and fold=1 variants, compare offsets; when they differ show the
ambiguity prompt and use the chosen fold (`later = false` is the radio
default, index 0). -/
def manual_localize_zoneinfo (z : Zone) (c : Int) (later : Bool) : LocalizeOutcome :=
  let off0 := utcoff z c false
  let off1 := utcoff z c true
  if off0 ≠ off1 then
    { ambiguous := true
      prompt := some "Ambiguous local time (DST transition). Choose interpretation:"
      civilUsed := c
      instant := if later then c - off1 else c - off0 }
  else
    { ambiguous := false, prompt := none, civilUsed := c, instant := c - off0 }

inductive PytzSignal where
  | ambiguousTime
  | nonExistentTime
  deriving DecidableEq, Repr

/-- The offset pytz selects for an explicit `is_dst` flag within an
anomalous window: the candidate whose DST flag matches. -/
def pytz_offset_choice (z : Zone) (isDst : Bool) : Int :=
  if z.dstBefore = isDst then z.offBefore else z.offAfter

/-- `pytz.timezone(...).localize(c, is_dst=...)`: with `is_dst=None` it
raises on a fold or gap; with an explicit flag it selects by DST flag in
the anomalous window and ignores the flag elsewhere. -/
def pytz_localize (z : Zone) (c : Int) (isDst : Option Bool) : Except PytzSignal Int :=
  if ambiguousAt z c then
    match isDst with
    | none => Except.error PytzSignal.ambiguousTime
    | some b => Except.ok (c - pytz_offset_choice z b)
  else if gapAt z c then
    match isDst with
    | none => Except.error PytzSignal.nonExistentTime
    | some b => Except.ok (c - pytz_offset_choice z b)
  else Except.ok (c - utcoff z c false)

/-- `pytz` localization with an explicit `is_dst` flag never raises; this
is its result. -/
def pytz_localize_forced (z : Zone) (c : Int) (isDst : Bool) : Int :=
  if ambiguousAt z c || gapAt z c then c - pytz_offset_choice z isDst
  else c - utcoff z c false

/-- Manual localization, pytz branch (src lines 317-337): try strict
localize; on `AmbiguousTimeError` re-localize with the chosen `is_dst`
(`laterTrue = false` is the radio default, labelled "Earlier
(is_dst=False)"); on `NonExistentTimeError` shift the civil time one hour
(`backward = false` is the radio default, "Shift forward 1 hour") and
localize the shifted time with `is_dst=False`. -/
def manual_localize_pytz (z : Zone) (c : Int) (laterTrue : Bool) (backward : Bool) :
    LocalizeOutcome :=
  match pytz_localize z c none with
  | Except.ok t => { ambiguous := false, prompt := none, civilUsed := c, instant := t }
  | Except.error PytzSignal.ambiguousTime =>
    { ambiguous := true
      prompt := some "Ambiguous local time (DST). Choose interpretation:"
      civilUsed := c
      instant := pytz_localize_forced z c laterTrue }
  | Except.error PytzSignal.nonExistentTime =>
    let fb := if backward then c - 3600 else c + 3600
    { ambiguous := true
      prompt := some "Non-existent local time (clock jumped). Choose a fallback:"
      civilUsed := fb
      instant := pytz_localize_forced z fb false }

/-! ### Row building (CSV export rows, both modes) -/

/-- One export row; the claims concern the `epoch` column
(`int(dt.timestamp())`), recorded alongside the civil projection. -/
structure Row where
  label : String
  timezoneName : String
  abbr : String
  localCivil : Int
  epoch : Int
  offset : String
  deriving DecidableEq, Repr

def row_for (label name : String) (d : AwareDT) : Row :=
  { label := label
    timezoneName := name
    abbr := tznameA d
    localCivil := d.civil
    epoch := timestampA d
    offset := tz_info_from_aware_dt (some (utcoffsetA d)) }

/-- Rows built for one conversion request (src lines 236-264 and 350-376):
the home-clock row from the source aware datetime, then one row per
selected target zone via `astimezone`. -/
def build_rows (homeName : String) (d : AwareDT) (tgts : List (String × Zone)) :
    List Row :=
  row_for "Home Clock" homeName d ::
    tgts.map (fun nz => row_for "Target Clock" nz.1 (astimezoneA d nz.2))

/-! ### Concrete zones, modelled from the platform IANA database over the
windows the concrete claims touch -/

/-- Asia/Kolkata: fixed UTC+05:30, abbreviation IST, no DST. -/
def kolkata : Zone :=
  { transAt := 0, offBefore := 19800, offAfter := 19800
    abbrBefore := "IST", abbrAfter := "IST", dstBefore := false, dstAfter := false }

/-- America/Los_Angeles around 2024-06: spring-forward 2024-03-10 02:00
PST → 03:00 PDT (transition instant 2024-03-10 10:00 UTC). -/
def losAngeles2024 : Zone :=
  { transAt := civilToEpoch 2024 3 10 10 0 0
    offBefore := -28800, offAfter := -25200
    abbrBefore := "PST", abbrAfter := "PDT", dstBefore := false, dstAfter := true }

/-- America/New_York spring 2023: 2023-03-12 02:00 EST → 03:00 EDT
(transition instant 2023-03-12 07:00 UTC). -/
def newYorkSpring2023 : Zone :=
  { transAt := civilToEpoch 2023 3 12 7 0 0
    offBefore := -18000, offAfter := -14400
    abbrBefore := "EST", abbrAfter := "EDT", dstBefore := false, dstAfter := true }

/-- America/New_York fall 2023: 2023-11-05 02:00 EDT → 01:00 EST
(transition instant 2023-11-05 06:00 UTC). -/
def newYorkFall2023 : Zone :=
  { transAt := civilToEpoch 2023 11 5 6 0 0
    offBefore := -14400, offAfter := -18000
    abbrBefore := "EDT", abbrAfter := "EST", dstBefore := true, dstAfter := false }

/-- Australia/Lord_Howe fall 2024: 2024-04-07 02:00 +11 → 01:30 +10:30
(transition instant 2024-04-06 15:00 UTC); the offset change is 30
minutes, not one hour. -/
def lordHowe2024 : Zone :=
  { transAt := civilToEpoch 2024 4 6 15 0 0
    offBefore := 39600, offAfter := 37800
    abbrBefore := "+11", abbrAfter := "+1030", dstBefore := true, dstAfter := false }

/-! ### Helper lemmas -/

theorem utcoffsetA_astimezoneA (d : AwareDT) (z : Zone) :
    utcoffsetA (astimezoneA d z) = offsetAtInstant z (timestampA d) := by
  set t := timestampA d with ht
  simp only [astimezoneA, utcoffsetA, utcoff, ttiAfter, offsetAtInstant]
  rcases lt_or_le t z.transAt with h | h
  · simp only [if_pos h]
    split_ifs with h1 h2 h3 <;> simp_all <;> omega
  · simp only [if_neg (not_lt.mpr h)]
    split_ifs with h1 h2 h3 <;> simp_all <;> omega

theorem timestampA_astimezoneA (d : AwareDT) (z : Zone) :
    timestampA (astimezoneA d z) = timestampA d := by
  have h := utcoffsetA_astimezoneA d z
  have hc : (astimezoneA d z).civil = timestampA d + offsetAtInstant z (timestampA d) := rfl
  calc timestampA (astimezoneA d z)
      = (astimezoneA d z).civil - utcoffsetA (astimezoneA d z) := rfl
    _ = timestampA d + offsetAtInstant z (timestampA d) - offsetAtInstant z (timestampA d) := by
        rw [hc, h]
    _ = timestampA d := by ring

theorem mem_matchesFor {omap : List (String × Option Int)} {s : Int} {m : String}
    (h : m ∈ matchesFor omap s) : m ∈ omap.map Prod.fst := by
  simp only [matchesFor, List.mem_map] at h
  obtain ⟨q, hq, rfl⟩ := h
  exact List.mem_map.mpr ⟨q, List.mem_of_mem_filter hq, rfl⟩

theorem keys_build_offset_map (db : List (String × Zone)) (nowUtc : Int)
    (timezones : List String) :
    (build_offset_map db nowUtc timezones).map Prod.fst = timezones := by
  simp [build_offset_map, List.map_map, Function.comp_def]

theorem offsetStep_mem {omap : List (String × Option Int)} {s : Int}
    {r : String × String} (h : offsetStep omap s = some r) :
    r.1 ∈ omap.map Prod.fst := by
  simp only [offsetStep] at h
  split_ifs at h with hk
  · cases h
    exact mem_matchesFor hk
  · revert h
    cases hfind : (matchesFor omap s).find? (fun m => strIn "Kolkata" m || strIn "India" m) with
    | some m =>
      intro h
      cases h
      exact mem_matchesFor (List.mem_of_find?_eq_some hfind)
    | none =>
      cases hms : matchesFor omap s with
      | nil => intro h; cases h
      | cons m0 rest =>
        intro h
        cases h
        exact mem_matchesFor (hms ▸ List.mem_cons_self m0 rest)

/-! ### Claim theorems -/

/-- C9: with home zone Asia/Kolkata and civil time 2024-06-01 15:00:00,
conversion to America/Los_Angeles yields local time 2024-06-01 02:30:00,
abbreviation PDT, and formatted offset UTC-07:00. -/
theorem c9_kolkata_to_losangeles_scenario :
    epochToCivil (astimezoneA (make_aware_from_naive (civilToEpoch 2024 6 1 15 0 0)
        kolkata) losAngeles2024).civil = (2024, 6, 1, 2, 30, 0) ∧
    tznameA (astimezoneA (make_aware_from_naive (civilToEpoch 2024 6 1 15 0 0)
        kolkata) losAngeles2024) = "PDT" ∧
    tz_info_from_aware_dt (some (utcoffsetA (astimezoneA (make_aware_from_naive
        (civilToEpoch 2024 6 1 15 0 0) kolkata) losAngeles2024))) = "UTC-07:00" := by
  refine ⟨by decide, by decide, by decide⟩

/-- C10: every export row built for one conversion request carries the same
epoch value as the home-clock row: `astimezone` never changes the
underlying instant, only its civil projection. -/
theorem c10_rows_single_instant (homeName : String) (d : AwareDT)
    (tgts : List (String × Zone)) :
    (build_rows homeName d tgts).map Row.epoch
      = List.replicate (tgts.length + 1) (timestampA d) := by
  have htgts : ∀ l : List (String × Zone),
      l.map (fun nz => (row_for "Target Clock" nz.1 (astimezoneA d nz.2)).epoch)
        = List.replicate l.length (timestampA d) := by
    intro l
    induction l with
    | nil => rfl
    | cons a t ih =>
      simp only [List.map_cons, List.length_cons, List.replicate_succ, ih,
        List.cons.injEq, and_true]
      show timestampA (astimezoneA d a.2) = timestampA d
      exact timestampA_astimezoneA d a.2
  simp only [build_rows, List.map_cons, List.map_map, List.replicate_succ,
    Function.comp_def]
  exact congrArg₂ List.cons rfl (htgts tgts)

/-- C5 (code bug): `tz_info_from_aware_dt` formats every offset exactly as
the spec formula does, but the zone-selection label formatter `label_for`
uses Python floor division for the hour field, so a negative offset with a
nonzero minute part is rendered with the hour magnitude one too large:
UTC-03:30 (America/St_Johns) is labelled "UTC-04:30". -/
theorem c5_label_for_floor_division_bug :
    (∀ s : Int, tz_info_from_aware_dt (some s) = specOffsetFormat s) ∧
    label_for "America/St_Johns" (some (-12600)) = "America/St_Johns (UTC-04:30)" ∧
    specOffsetFormat (-12600) = "UTC-03:30" ∧
    label_for "America/St_Johns" (some (-12600))
      ≠ "America/St_Johns (" ++ specOffsetFormat (-12600) ++ ")" := by
  exact ⟨fun s => rfl, by decide, by decide, by decide⟩

/-- C6 (counterexample): looking up the offset of an identifier absent from
the zone database does not surface an error: `build_offset_map` returns
normally and records `none` for the unknown zone. -/
theorem c6_counterexample :
    build_offset_map [] 0 ["Mars/Olympus"] = [("Mars/Olympus", none)] ∧
    offset_of_zone [] 0 "Mars/Olympus" = Except.error "ZoneInfoNotFoundError" := by
  exact ⟨rfl, rfl⟩

/-- C6 (amended): the platform lookup of an unknown identifier does fail
(`ZoneInfoNotFoundError`), but `build_offset_map` catches the exception and
silently records `none` — a placeholder — as that zone's offset, and
`label_for` then renders the bare zone name; no error reaches the caller. -/
theorem c6_unknown_zone_offset_swallowed (db : List (String × Zone)) (nowUtc : Int)
    (timezones : List String) (tz : String)
    (hdb : db.lookup tz = none) (htz : tz ∈ timezones) :
    offset_of_zone db nowUtc tz = Except.error "ZoneInfoNotFoundError" ∧
    (tz, (none : Option Int)) ∈ build_offset_map db nowUtc timezones ∧
    label_for tz none = tz := by
  have h1 : offset_of_zone db nowUtc tz = Except.error "ZoneInfoNotFoundError" := by
    simp [offset_of_zone, zone_info_of, hdb, Except.map]
  refine ⟨h1, ?_, rfl⟩
  simp only [build_offset_map, List.mem_map]
  exact ⟨tz, htz, by simp [h1, Except.toOption]⟩

/-- C6 witness: instantiating the amended claim at a concrete unknown
identifier. -/
theorem c6_witness :
    offset_of_zone [] 0 "Mars/Olympus" = Except.error "ZoneInfoNotFoundError" ∧
    ("Mars/Olympus", (none : Option Int)) ∈ build_offset_map [] 0 ["Mars/Olympus"] ∧
    label_for "Mars/Olympus" none = "Mars/Olympus" :=
  c6_unknown_zone_offset_swallowed [] 0 ["Mars/Olympus"] "Mars/Olympus" rfl
    (List.mem_singleton.mpr rfl)

theorem utcoff_anomalous {z : Zone} {c : Int}
    (h : ambiguousAt z c = true ∨ gapAt z c = true) :
    utcoff z c false = z.offBefore ∧ utcoff z c true = z.offAfter := by
  have h' : (z.offAfter < z.offBefore ∧ z.transAt + z.offAfter ≤ c ∧
        c < z.transAt + z.offBefore) ∨
      (z.offBefore < z.offAfter ∧ z.transAt + z.offBefore ≤ c ∧
        c < z.transAt + z.offAfter) := by
    rcases h with h | h
    · exact Or.inl (by simpa [ambiguousAt] using h)
    · exact Or.inr (by simpa [gapAt] using h)
  constructor <;> simp only [utcoff, ttiAfter] <;> split_ifs <;> simp_all <;> omega

/-- C1 (amended): in the zoneinfo branch, an ambiguous civil time is
resolved by default (fold 0) to the earlier occurrence — the offset in
effect before the transition — and to the later occurrence on request;
the two instants differ by exactly the offset change at the transition
(one hour exactly when the fold shifts clocks by one hour).  In the pytz
branch the default choice, labelled "Earlier (is_dst=False)", actually
selects the post-transition offset, i.e. the later occurrence, for a
standard DST-to-standard fold. -/
theorem c1_ambiguous_fold_resolution (z : Zone) (c : Int)
    (h : ambiguousAt z c = true) :
    (manual_localize_zoneinfo z c false).ambiguous = true ∧
    (manual_localize_zoneinfo z c false).instant = c - z.offBefore ∧
    (manual_localize_zoneinfo z c true).instant = c - z.offAfter ∧
    (manual_localize_zoneinfo z c false).instant
      < (manual_localize_zoneinfo z c true).instant ∧
    (manual_localize_zoneinfo z c true).instant
      - (manual_localize_zoneinfo z c false).instant = z.offBefore - z.offAfter ∧
    (z.dstBefore = true → z.dstAfter = false →
      (manual_localize_pytz z c false false).instant = c - z.offAfter) := by
  obtain ⟨hoff0, hoff1⟩ := utcoff_anomalous (Or.inl h)
  have harith : z.offAfter < z.offBefore ∧ z.transAt + z.offAfter ≤ c ∧
      c < z.transAt + z.offBefore := by simpa [ambiguousAt] using h
  have hne : utcoff z c false ≠ utcoff z c true := by
    rw [hoff0, hoff1]; omega
  have hz0 : manual_localize_zoneinfo z c false =
      { ambiguous := true
        prompt := some "Ambiguous local time (DST transition). Choose interpretation:"
        civilUsed := c
        instant := c - utcoff z c false } := by
    simp [manual_localize_zoneinfo, hne]
  have hz1 : manual_localize_zoneinfo z c true =
      { ambiguous := true
        prompt := some "Ambiguous local time (DST transition). Choose interpretation:"
        civilUsed := c
        instant := c - utcoff z c true } := by
    simp [manual_localize_zoneinfo, hne]
  refine ⟨by rw [hz0], by rw [hz0, hoff0], by rw [hz1, hoff1], ?_, ?_, ?_⟩
  · rw [hz0, hz1, hoff0, hoff1]; dsimp only; omega
  · rw [hz0, hz1, hoff0, hoff1]; dsimp only; omega
  · intro hb ha
    have hpy : pytz_localize z c none = Except.error PytzSignal.ambiguousTime := by
      simp [pytz_localize, h]
    simp [manual_localize_pytz, hpy, pytz_localize_forced, h, pytz_offset_choice, hb]

/-- C1 witness: America/New_York, 2023-11-05 01:30:00 falls in the fold;
the two interpretations differ by the transition's offset change. -/
theorem c1_witness :
    (manual_localize_zoneinfo newYorkFall2023 (civilToEpoch 2023 11 5 1 30 0) true).instant
      - (manual_localize_zoneinfo newYorkFall2023 (civilToEpoch 2023 11 5 1 30 0) false).instant
      = newYorkFall2023.offBefore - newYorkFall2023.offAfter :=
  (c1_ambiguous_fold_resolution newYorkFall2023 (civilToEpoch 2023 11 5 1 30 0)
    (by decide)).2.2.2.2.1

/-- C1 counterexample: Australia/Lord_Howe, 2024-04-07 01:45:00 is
ambiguous, yet the earlier and later interpretations differ by 30 minutes,
not one hour. -/
theorem c1_counterexample :
    ambiguousAt lordHowe2024 (civilToEpoch 2024 4 7 1 45 0) = true ∧
    (manual_localize_zoneinfo lordHowe2024 (civilToEpoch 2024 4 7 1 45 0) true).instant
      - (manual_localize_zoneinfo lordHowe2024 (civilToEpoch 2024 4 7 1 45 0) false).instant
      = 1800 ∧
    ¬((manual_localize_zoneinfo lordHowe2024 (civilToEpoch 2024 4 7 1 45 0) true).instant
      - (manual_localize_zoneinfo lordHowe2024 (civilToEpoch 2024 4 7 1 45 0) false).instant
      = 3600) := by
  refine ⟨by decide, by decide, by decide⟩

/-- C2 (amended): only the pytz branch detects a spring-forward gap as
distinct from a fold (`NonExistentTimeError`), shifts the civil time one
hour in the caller-indicated direction (forward by default) and
re-localizes the shifted time; the zoneinfo branch — the one used whenever
zoneinfo is available — does not distinguish the gap from a fold: it
raises the same "Ambiguous local time" prompt and localizes the unshifted
civil time with the chosen fold. -/
theorem c2_gap_handling (z : Zone) (c : Int) (laterTrue later : Bool)
    (h : gapAt z c = true) :
    pytz_localize z c none = Except.error PytzSignal.nonExistentTime ∧
    (manual_localize_pytz z c laterTrue false).civilUsed = c + 3600 ∧
    (manual_localize_pytz z c laterTrue true).civilUsed = c - 3600 ∧
    (manual_localize_pytz z c laterTrue false).prompt
      = some "Non-existent local time (clock jumped). Choose a fallback:" ∧
    (z.offAfter - z.offBefore = 3600 →
      (manual_localize_pytz z c laterTrue false).instant = (c + 3600) - z.offAfter) ∧
    (manual_localize_zoneinfo z c later).ambiguous = true ∧
    (manual_localize_zoneinfo z c later).civilUsed = c ∧
    (manual_localize_zoneinfo z c later).prompt
      = some "Ambiguous local time (DST transition). Choose interpretation:" := by
  have harith : z.offBefore < z.offAfter ∧ z.transAt + z.offBefore ≤ c ∧
      c < z.transAt + z.offAfter := by simpa [gapAt] using h
  have hnamb : ambiguousAt z c = false := by
    simp only [ambiguousAt, decide_eq_false_iff_not]; omega
  have hpy : pytz_localize z c none = Except.error PytzSignal.nonExistentTime := by
    simp [pytz_localize, h, hnamb]
  obtain ⟨hoff0, hoff1⟩ := utcoff_anomalous (Or.inr h)
  have hne : utcoff z c false ≠ utcoff z c true := by
    rw [hoff0, hoff1]; omega
  have hz : manual_localize_zoneinfo z c later =
      { ambiguous := true
        prompt := some "Ambiguous local time (DST transition). Choose interpretation:"
        civilUsed := c
        instant := if later then c - utcoff z c true else c - utcoff z c false } := by
    simp [manual_localize_zoneinfo, hne]
  refine ⟨hpy, by simp [manual_localize_pytz, hpy], by simp [manual_localize_pytz, hpy],
    by simp [manual_localize_pytz, hpy], ?_, by rw [hz], by rw [hz], by rw [hz]⟩
  intro hw
  have hnamb' : ambiguousAt z (c + 3600) = false := by
    simp only [ambiguousAt, decide_eq_false_iff_not]; omega
  have hngap' : gapAt z (c + 3600) = false := by
    simp only [gapAt, decide_eq_false_iff_not]; omega
  have hoff : utcoff z (c + 3600) false = z.offAfter := by
    simp only [utcoff, ttiAfter]
    split_ifs <;> simp_all <;> omega
  simp [manual_localize_pytz, hpy, pytz_localize_forced, hnamb', hngap', hoff]

/-- C2 witness: America/New_York, 2023-03-12 02:30:00 is in the gap; the
pytz branch shifts the civil time forward one hour by default. -/
theorem c2_witness :
    (manual_localize_pytz newYorkSpring2023 (civilToEpoch 2023 3 12 2 30 0)
      false false).civilUsed = civilToEpoch 2023 3 12 2 30 0 + 3600 :=
  (c2_gap_handling newYorkSpring2023 (civilToEpoch 2023 3 12 2 30 0) false false
    (by decide)).2.1

/-- C2 counterexample: for the non-existent civil time 2023-03-12 02:30:00
in America/New_York, the zoneinfo manual-localization branch reports the
gap with the fold prompt ("Ambiguous local time ...") and localizes the
unshifted civil time — it neither detects the gap as distinct from a fold
nor shifts the civil time by one hour. -/
theorem c2_counterexample :
    gapAt newYorkSpring2023 (civilToEpoch 2023 3 12 2 30 0) = true ∧
    manual_localize_zoneinfo newYorkSpring2023 (civilToEpoch 2023 3 12 2 30 0) false
      = { ambiguous := true
          prompt := some "Ambiguous local time (DST transition). Choose interpretation:"
          civilUsed := civilToEpoch 2023 3 12 2 30 0
          instant := civilToEpoch 2023 3 12 2 30 0 + 18000 } := by
  refine ⟨by decide, by decide⟩

/-- UTC as a zone value (fixed zero offset). -/
def utcZone : Zone :=
  { transAt := 0, offBefore := 0, offAfter := 0
    abbrBefore := "UTC", abbrAfter := "UTC", dstBefore := false, dstAfter := false }

/-- The civil time the dashboard displays for instant `t` in zone `z`:
project an aware UTC datetime through `astimezone`, as `render_card` and
the current-time path do. -/
def project_civil (z : Zone) (t : Int) : Int :=
  (astimezoneA { civil := t, zone := utcZone, fold := false } z).civil

/-- C3: projecting an instant into a zone and localizing the resulting
civil time back (zoneinfo attach, fold 0 — the earlier/shift-forward
defaults) recovers the instant, provided that civil time is neither
ambiguous nor non-existent in the zone. -/
theorem c3_roundtrip (z : Zone) (t : Int)
    (hamb : ambiguousAt z (project_civil z t) = false)
    (hgap : gapAt z (project_civil z t) = false) :
    timestampA (make_aware_from_naive (project_civil z t) z) = t := by
  have hts : timestampA { civil := t, zone := utcZone, fold := false } = t := by
    simp [timestampA, utcoffsetA, utcoff, utcZone, ite_self]
  have hc : project_civil z t = t + offsetAtInstant z t := by
    simp only [project_civil, astimezoneA, hts]
  have hamb' : ¬(z.offAfter < z.offBefore ∧ z.transAt + z.offAfter ≤ project_civil z t ∧
      project_civil z t < z.transAt + z.offBefore) := by
    simpa [ambiguousAt] using hamb
  rcases lt_or_le t z.transAt with hbt | hat
  · have hc' : project_civil z t = t + z.offBefore := by
      rw [hc, offsetAtInstant, if_pos hbt]
    simp only [make_aware_from_naive, timestampA, utcoffsetA, utcoff, ttiAfter]
    split_ifs <;> simp_all <;> omega
  · have hc' : project_civil z t = t + z.offAfter := by
      rw [hc, offsetAtInstant, if_neg (not_lt.mpr hat)]
    simp only [make_aware_from_naive, timestampA, utcoffsetA, utcoff, ttiAfter]
    split_ifs <;> simp_all <;> omega

/-- C3 witness: instant 2023-06-01 16:00:00 UTC round-trips through
America/New_York. -/
theorem c3_witness :
    timestampA (make_aware_from_naive
      (project_civil newYorkFall2023 (civilToEpoch 2023 6 1 16 0 0)) newYorkFall2023)
      = civilToEpoch 2023 6 1 16 0 0 :=
  c3_roundtrip newYorkFall2023 (civilToEpoch 2023 6 1 16 0 0) (by decide) (by decide)

theorem envStep_mem {tzs : List String} {p : DetectProbes} {r : String × String}
    (h : envStep tzs p = some r) : r.1 ∈ tzs := by
  cases hp : p.envVar with
  | none => simp [envStep, hp] at h
  | some v =>
    simp only [envStep, hp] at h
    split_ifs at h with hv
    cases h
    exact hv.2

theorem tzlocalStep_mem {tzs : List String} {p : DetectProbes} {r : String × String}
    (h : tzlocalStep tzs p = some r) : r.1 ∈ tzs := by
  cases hav : p.tzlocalAvail with
  | false => simp [tzlocalStep, hav] at h
  | true =>
    cases hn : p.tzlocalName with
    | some n =>
      simp only [tzlocalStep, hav, hn, if_true] at h
      split_ifs at h with hm
      cases h
      exact hm
    | none =>
      cases hz : p.tzlocalZoneAttr with
      | some zn =>
        simp only [tzlocalStep, hav, hn, hz, if_true] at h
        split_ifs at h with hm
        cases h
        exact hm
      | none => simp [tzlocalStep, hav, hn, hz] at h

theorem attrCandidate_mem {tzs : List String} {v? : Option String} {r : String × String}
    (h : attrCandidate tzs v? = some r) : r.1 ∈ tzs := by
  cases hv : v? with
  | none => simp [attrCandidate, hv] at h
  | some v =>
    simp only [attrCandidate, hv] at h
    split_ifs at h with hm
    cases h
    exact hm

theorem astimezoneTznameSub_mem {tzs : List String} {p : DetectProbes}
    {r : String × String} (h : astimezoneTznameSub tzs p = some r) : r.1 ∈ tzs := by
  cases hn : p.tznameRes with
  | none => simp [astimezoneTznameSub, hn] at h
  | some n =>
    simp only [astimezoneTznameSub, hn] at h
    split_ifs at h with hm
    cases h
    exact hm.2

theorem astimezoneStep_mem {tzs : List String} {p : DetectProbes} {r : String × String}
    (h : astimezoneStep tzs p = some r) : r.1 ∈ tzs := by
  cases hav : p.astimezoneAvail with
  | false => simp [astimezoneStep, hav] at h
  | true =>
    cases hz : attrCandidate tzs p.attrZone with
    | some q =>
      simp only [astimezoneStep, hav, hz, if_true] at h
      cases h
      exact attrCandidate_mem hz
    | none =>
      cases hk : attrCandidate tzs p.attrKey with
      | some q =>
        simp only [astimezoneStep, hav, hz, hk, if_true] at h
        cases h
        exact attrCandidate_mem hk
      | none =>
        simp only [astimezoneStep, hav, hz, hk, if_true] at h
        exact astimezoneTznameSub_mem h

theorem abbrevStep_mem {tzs : List String} {p : DetectProbes} {r : String × String}
    (h : abbrevStep tzs p = some r) : r.1 ∈ tzs := by
  cases ha : p.abbrevRes with
  | none => simp [abbrevStep, ha] at h
  | some ab =>
    simp only [abbrevStep, ha] at h
    split_ifs at h with hne
    cases hl : abbrev_map.lookup ab with
    | some cand =>
      simp only [hl] at h
      split_ifs at h with hm
      cases h
      exact hm
    | none => simp [hl] at h

/-- The probe bundle in which every platform call has failed. -/
def allFailedProbes : DetectProbes :=
  { envVar := none, tzlocalAvail := false, tzlocalName := none,
    tzlocalZoneAttr := none, astimezoneAvail := false, attrZone := none,
    attrKey := none, tznameRes := none, abbrevRes := none, localOffset := none }

/-- C4: fed the offset map it is actually called with (built over the same
catalog), the detector always returns a catalog member, whatever the probes
report — and when every probe fails it returns ("UTC", "fallback").  The
function is total by construction: every per-step exception of the source
is caught inside that step and modelled as an abstaining probe. -/
theorem c4_detector_total (db : List (String × Zone)) (nowUtc : Int)
    (timezones : List String) (p : DetectProbes) (hUTC : "UTC" ∈ timezones) :
    (detect_local_timezone_candidate timezones
        (build_offset_map db nowUtc timezones) p).1 ∈ timezones ∧
    detect_local_timezone_candidate timezones
      (build_offset_map db nowUtc timezones) allFailedProbes = ("UTC", "fallback") := by
  refine ⟨?_, rfl⟩
  cases he : envStep timezones p with
  | some r =>
    simp only [detect_local_timezone_candidate, he]
    exact envStep_mem he
  | none =>
  cases ht : tzlocalStep timezones p with
  | some r =>
    simp only [detect_local_timezone_candidate, he, ht]
    exact tzlocalStep_mem ht
  | none =>
  cases ha : astimezoneStep timezones p with
  | some r =>
    simp only [detect_local_timezone_candidate, he, ht, ha]
    exact astimezoneStep_mem ha
  | none =>
  cases hb : abbrevStep timezones p with
  | some r =>
    simp only [detect_local_timezone_candidate, he, ht, ha, hb]
    exact abbrevStep_mem hb
  | none =>
  cases hlo : p.localOffset with
  | none =>
    simp only [detect_local_timezone_candidate, he, ht, ha, hb, hlo]
    exact hUTC
  | some s =>
  cases ho : offsetStep (build_offset_map db nowUtc timezones) s with
  | none =>
    simp only [detect_local_timezone_candidate, he, ht, ha, hb, hlo, ho]
    exact hUTC
  | some r =>
    simp only [detect_local_timezone_candidate, he, ht, ha, hb, hlo, ho]
    have hmem := offsetStep_mem ho
    rwa [keys_build_offset_map] at hmem

/-- C4 witness: with an empty zone database and the one-element catalog
["UTC"], the detector result is a catalog member for a concrete probe
bundle (here: every probe failing). -/
theorem c4_witness :
    (detect_local_timezone_candidate ["UTC"] (build_offset_map [] 0 ["UTC"])
      allFailedProbes).1 ∈ ["UTC"] :=
  (c4_detector_total [] 0 ["UTC"] allFailedProbes (by decide)).1

/-- C7: the offset-matching fallback.  `matchesFor` is exactly the set of
catalog entries whose cached offset equals the host offset; among them the
detector prefers "Asia/Kolkata", then the first whose name contains
"Kolkata" or "India", then the first in catalog order; and when the first
four heuristics abstain the detector answer is precisely this step with
the terminal "UTC" fallback. -/
theorem c7_offset_match_priority (omap : List (String × Option Int)) (s : Int) :
    (∀ m : String, m ∈ matchesFor omap s ↔ (m, some s) ∈ omap) ∧
    ("Asia/Kolkata" ∈ matchesFor omap s →
      offsetStep omap s = some ("Asia/Kolkata", "offset_prefer")) ∧
    ("Asia/Kolkata" ∉ matchesFor omap s → ∀ m : String,
      (matchesFor omap s).find? (fun x => strIn "Kolkata" x || strIn "India" x) = some m →
      offsetStep omap s = some (m, "offset_name_match")) ∧
    ("Asia/Kolkata" ∉ matchesFor omap s →
      (matchesFor omap s).find? (fun x => strIn "Kolkata" x || strIn "India" x) = none →
      ∀ (m0 : String) (rest : List String), matchesFor omap s = m0 :: rest →
      offsetStep omap s = some (m0, "offset_first_match")) ∧
    (∀ (tzs : List String) (p : DetectProbes), p.localOffset = some s →
      envStep tzs p = none → tzlocalStep tzs p = none → astimezoneStep tzs p = none →
      abbrevStep tzs p = none →
      detect_local_timezone_candidate tzs omap p
        = (offsetStep omap s).getD ("UTC", "fallback")) := by
  refine ⟨?_, ?_, ?_, ?_, ?_⟩
  · intro m
    constructor
    · intro hm
      simp only [matchesFor, List.mem_map] at hm
      obtain ⟨q, hq, rfl⟩ := hm
      have h1 := (List.mem_filter.mp hq).1
      have h2 := (List.mem_filter.mp hq).2
      rw [decide_eq_true_eq] at h2
      have hq' : q = (q.1, some s) := by
        cases q
        simp_all
      rwa [hq'] at h1
    · intro hm
      simp only [matchesFor, List.mem_map]
      exact ⟨(m, some s), List.mem_filter.mpr ⟨hm, by simp⟩, rfl⟩
  · intro h
    simp only [offsetStep]
    rw [if_pos h]
  · intro h m hfind
    simp only [offsetStep]
    rw [if_neg h, hfind]
  · intro h hfind m0 rest heq
    simp only [offsetStep]
    rw [if_neg h, hfind, heq]
  · intro tzs p hlo he ht ha hb
    simp only [detect_local_timezone_candidate, he, ht, ha, hb, hlo]
    cases ho : offsetStep omap s <;> simp [ho]

/-- C7 witness: for a catalog snapshot at offset 19800s where Asia/Kolkata
is absent, the first name containing "India" wins. -/
theorem c7_witness :
    offsetStep [("Asia/Colombo", some 19800), ("Indian/Maldives", some 19800)] 19800
      = some ("Indian/Maldives", "offset_name_match") :=
  (c7_offset_match_priority
      [("Asia/Colombo", some 19800), ("Indian/Maldives", some 19800)] 19800).2.2.1
    (by decide) "Indian/Maldives" (by decide)

/-- C8: a set environment override naming a catalog zone is returned
immediately with tag "env", regardless of what every other probe reports;
a set value not naming a catalog zone is ignored and the detector behaves
exactly as if the variable were unset (no error). -/
theorem c8_env_override (tzs : List String) (omap : List (String × Option Int))
    (p : DetectProbes) (v : String) (hv : p.envVar = some v) :
    (v ≠ "" → v ∈ tzs → detect_local_timezone_candidate tzs omap p = (v, "env")) ∧
    (v ∉ tzs → detect_local_timezone_candidate tzs omap p
      = detect_local_timezone_candidate tzs omap { p with envVar := none }) := by
  constructor
  · intro hne hmem
    have he : envStep tzs p = some (v, "env") := by
      unfold envStep
      simp only [hv]
      rw [if_pos ⟨hne, hmem⟩]
    simp [detect_local_timezone_candidate, he]
  · intro hnm
    have he : envStep tzs p = none := by
      unfold envStep
      simp only [hv]
      rw [if_neg (fun hc => hnm hc.2)]
    have he' : envStep tzs { p with envVar := none } = none := rfl
    simp only [detect_local_timezone_candidate, he, he']
    rfl

/-- Probe bundle with the override set to a known zone while another
heuristic would also answer. -/
def envSetProbes : DetectProbes :=
  { allFailedProbes with
      envVar := some "Asia/Kolkata", tzlocalAvail := true, tzlocalName := some "UTC" }

/-- C8 witness: the override set to a known zone wins with tag "env" even
while the tzlocal probe would answer "UTC". -/
theorem c8_witness :
    detect_local_timezone_candidate ["UTC", "Asia/Kolkata"] [] envSetProbes
      = ("Asia/Kolkata", "env") :=
  (c8_env_override ["UTC", "Asia/Kolkata"] [] envSetProbes "Asia/Kolkata" rfl).1
    (by decide) (by decide)

end TZDash
